import Mathlib

/-!
Verification development for the pyet evapotranspiration library
(`src/pyet/penman.py`).

Time series are modelled elementwise: every pandas Series argument is a single
real value per time step, and the pandas date index is modelled by its day of
year `j : ℕ` (the only information the astronomy helpers extract from it).
Optional (`None`-able) Python arguments are `Option ℝ`.  A Python `None`
flowing into arithmetic (which raises `TypeError` at run time) and an implicit
`return None` are both modelled by `none`; the distinction is irrelevant to
every property below except where noted, and is commented at each site.

Machine floats are modelled by real numbers.
-/

open Real

noncomputable section

/-- Python `round(x, 8)` modelled over ℝ: round to 8 decimal places.  Python
rounds ties to even; no tie occurs at any input considered in this development,
and away from ties Mathlib `round` (round half up) agrees with Python. -/
def round8 (x : ℝ) : ℝ := (round (x * 10 ^ 8) : ℤ) / 10 ^ 8

/-- Modelled from the spec: `relative_distance` lives in `pyet.utils`, which is
not under `src/`; spec §4.1 gives `1 + 0.033*cos(2π·day/365)`. -/
def relative_distance (j : ℕ) : ℝ := 1 + 0.033 * Real.cos (2 * π * j / 365)

/-- Modelled from the spec: `solar_declination` lives in `pyet.utils`, which is
not under `src/`; spec §4.1 gives `0.409*sin(2π·day/365 − 1.39)` [rad]. -/
def solar_declination (j : ℕ) : ℝ := 0.409 * Real.sin (2 * π * j / 365 - 1.39)

/-- Modelled from the spec: `sunset_angle` lives in `pyet.utils`, which is not
under `src/`; spec §4.1 gives `acos(−tan(lat)·tan(declination))` [rad]. -/
def sunset_angle (lat sol_dec : ℝ) : ℝ := Real.arccos (-Real.tan lat * Real.tan sol_dec)

/-- Modelled from the spec: `daylight_hours` lives in `pyet.utils`, which is
not under `src/`; spec §4.1 gives `24/π · sunset_angle`. -/
def daylight_hours (j : ℕ) (lat : ℝ) : ℝ := 24 / π * sunset_angle lat (solar_declination j)

/-- Modelled from the spec: `extraterrestrial_r` lives in `pyet.utils`, which
is not under `src/`; spec §4.1: solar constant `Gsc = 0.0820` MJ m⁻² min⁻¹
combined with `relative_distance`, `sunset_angle` and trigonometric cross
terms per FAO-56 eq. 21 (the same structure as `ra_calc` in `penman.py`). -/
def extraterrestrial_r (j : ℕ) (lat : ℝ) : ℝ :=
  let dr := relative_distance j
  let sol_dec := solar_declination j
  let omega := sunset_angle lat sol_dec
  24 * 60 * 0.082 / π * dr *
    (omega * Real.sin sol_dec * Real.sin lat + Real.cos sol_dec * Real.cos lat * Real.sin omega)

/-- Saturation vapour pressure at air temperature (`e0_calc`, penman.py). -/
def e0_calc (temperature : ℝ) : ℝ :=
  0.6108 * Real.exp (17.27 * temperature / (temperature + 237.3))

/-- Mean saturation vapour pressure from the temperature extremes
(`es_calc`, penman.py). -/
def es_calc (tmax tmin : ℝ) : ℝ :=
  let eamax := e0_calc tmax
  let eamin := e0_calc tmin
  (eamax + eamin) / 2

/-- Actual vapour pressure (`ea_calc`, penman.py).  Four-way dispatch on the
supplied humidity inputs; when none of `rhmax`, `rhmin`, `rh` is supplied the
source prints `"error"` and implicitly returns Python `None` (modelled by
`none`). -/
def ea_calc (tmax tmin : ℝ) (rhmax rhmin rh : Option ℝ) : Option ℝ :=
  let eamax := e0_calc tmax
  let eamin := e0_calc tmin
  match rhmax, rhmin with
  | some rmax, some rmin => some (eamin * rmax / 200 + eamax * rmin / 200)
  | some rmax, none => some (eamin * rmax / 100)
  | none, some _ => some eamin
  | none, none =>
    match rh with
    | some r => some (r / 200 * (eamax + eamin))
    | none => none

/-- Slope of the saturation vapour pressure curve (`vpc_calc`, penman.py).
Method 0 uses the given mean temperature; any other method uses `tmax` and
`tmin` and applies Python `round(·, 8)` once, to the sum of the two terms. -/
def vpc_calc (temperature tmin tmax : Option ℝ) (method : ℕ) : Option ℝ :=
  if method = 0 then
    temperature.map fun t => 4098 * e0_calc t / (t + 237.3) ^ 2
  else
    match tmax, tmin with
    | some tx, some tn =>
        some (round8 (2049 * e0_calc tx / (tx + 237.3) ^ 2 +
          2049 * e0_calc tn / (tn + 237.3) ^ 2))
    | _, _ => none

/-- Clear-sky solar radiation (`rso_calc`, penman.py). -/
def rso_calc (ra elevation : ℝ) : ℝ := (0.75 + 2 * (10 : ℝ) ^ (-5 : ℤ) * elevation) * ra

/-- Psychrometric constant (`psy_calc`, penman.py). -/
def psy_calc (pressure : ℝ) (lambd : Option ℝ) : ℝ :=
  match lambd with
  | none => 0.000665 * pressure
  | some l => 0.0016286 * pressure / l

/-- Atmospheric pressure from elevation (`press_calc`, penman.py); the
exponent is a real power (Python `**`), modelled by `Real.rpow`. -/
def press_calc (elevation power : ℝ) : ℝ :=
  101.3 * (((293 : ℝ) - 0.0065 * elevation) / 293) ^ power

/-- Latent heat of vaporisation (`lambda_calc`, penman.py). -/
def lambda_calc (temperature : ℝ) : ℝ := 2.501 - 0.002361 * temperature

/-- Air density (`calc_rhoa`, penman.py). -/
def calc_rhoa (pressure ta : ℝ) : ℝ := pressure / (1.01 * (ta + 273) * 287)

/-- Aerodynamic resistance (`calc_ra`, penman.py).  Both methods end by
dividing by `wind`; a missing `wind` is a Python `TypeError` (modelled by
`none`), and a method other than 1 or 2 falls through returning `None`. -/
def calc_ra (wind croph : Option ℝ) (method : ℕ) : Option ℝ :=
  if method = 1 then
    wind.map fun w => 208 / w
  else if method = 2 then
    match croph, wind with
    | some c, some w =>
        some (Real.log ((2 - 0.667 * c) / (0.123 * c)) *
          Real.log ((2 - 0.667 * c) / (0.0123 * c)) / 0.41 ^ 2 / w)
    | _, _ => none
  else none

/-- Result of `rc_calc` (penman.py).  Method 2 divides 200 by `lai` with no
guard: a missing `lai` raises a Python `TypeError` (`200 / None`) and
`lai = 0` raises `ZeroDivisionError`; a method other than 1 or 2 falls
through, returning Python `None`. -/
inductive RcResult where
  | val (v : ℝ)
  | typeError
  | zeroDivisionError
  | noneReturn

open Classical in
/-- Canopy / bulk surface resistance (`rc_calc`, penman.py). -/
def rc_calc (lai : Option ℝ) (method : ℕ) : RcResult :=
  if method = 1 then .val 70
  else if method = 2 then
    match lai with
    | none => .typeError
    | some l => if l = 0 then .zeroDivisionError else .val (200 / l)
  else .noneReturn

/-- Normal-return value of `rc_calc`, if any. -/
def RcResult.toValue : RcResult → Option ℝ
  | .val v => some v
  | _ => none

/-- Cloudiness factor (`cloudiness_factor`, penman.py). -/
def cloudiness_factor (rs rso ac bc : ℝ) : ℝ := ac * rs / rso + bc

/-- Extraterrestrial radiation, FAO-1990 form (`ra_calc`, penman.py); the
astronomy helpers it imports from `pyet.utils` are modelled from the spec
above. -/
def ra_calc (j : ℕ) (lat : ℝ) : ℝ :=
  let dr := relative_distance j
  let sol_dec := solar_declination j
  let omega := sunset_angle lat sol_dec
  0.082 * 24 * 60 / π * dr *
    (omega * Real.sin sol_dec * Real.sin lat + Real.cos sol_dec * Real.cos lat * Real.sin omega)

/-- Incoming solar radiation, FAO-1990 form (`rs_calc`, penman.py); the source
sets `nn = 1`. -/
def rs_calc (j : ℕ) (lat a_s b_s : ℝ) : ℝ := (a_s + b_s * 1) * ra_calc j lat

/-- Actual vapour pressure, FAO-1990 form (`ed_calc`, penman.py). -/
def ed_calc (tmax tmin rh : ℝ) : ℝ :=
  let eamax := e0_calc tmax
  let eamin := e0_calc tmin
  rh / (50 / eamin + 50 / eamax)

/-- Net shortwave radiation, FAO-1990 form (`calc_rns`, penman.py). -/
def calc_rns (solar : Option ℝ) (j : ℕ) (lat alpha : ℝ) : Option ℝ :=
  match solar with
  | some s => some ((1 - alpha) * s)
  | none => some ((1 - alpha) * rs_calc j lat 0.25 0.5)

/-- Net longwave radiation, FAO-1990 form (`calc_rnl`, penman.py). -/
def calc_rnl (tmax tmin ea cloudf longa longb : ℝ) : ℝ :=
  let sigma := 0.00000000245 * ((tmax + 273.16) ^ 4 + (tmin + 273.16) ^ 4)
  let emiss := longa + longb * round8 (Real.sqrt ea)
  sigma * cloudf * emiss

/-- Net outgoing longwave radiation (`longwave_r`, penman.py). -/
def longwave_r (j : ℕ) (solar tmax tmin : ℝ) (rhmax rhmin rh : Option ℝ)
    (rso : Option ℝ) (elevation lat : ℝ) (ea : Option ℝ) : Option ℝ :=
  let steff : ℝ := 4.903 * (10 : ℝ) ^ (-9 : ℤ)
  let rsoV := match rso with
    | some r => r
    | none => rso_calc (extraterrestrial_r j lat) elevation
  let solar_rat := solar / rsoV
  (match ea with
   | some e => some e
   | none => ea_calc tmax tmin rhmax rhmin rh).map fun e =>
    steff * ((tmax + 273.2) ^ 4 + (tmin + 273.2) ^ 4) / 2 *
      (0.34 - 0.14 * Real.sqrt e) * (1.35 * solar_rat - 0.35)

/-- Incoming solar radiation from sunshine duration (`in_solar_r`, penman.py);
a missing `nn` flows into `n / nn`, a Python `TypeError`. -/
def in_solar_r (j : ℕ) (lat a_s b_s : ℝ) (n nn : Option ℝ) : Option ℝ :=
  let ra := extraterrestrial_r j lat
  let nV := n.getD (daylight_hours j lat)
  match nn with
  | some nnV => some ((a_s + b_s * nV / nnV) * ra)
  | none => none

/-- Net shortwave radiation (`shortwave_r`, penman.py). -/
def shortwave_r (solar : Option ℝ) (j : ℕ) (lat alpha : ℝ) (n nn : Option ℝ) : Option ℝ :=
  match solar with
  | some s => some ((1 - alpha) * s)
  | none => (in_solar_r j lat 0.25 0.5 n nn).map fun r => (1 - alpha) * r

/-- Penman (1948) evapotranspiration (`penman`, penman.py).  `j` models the
day of year carried by the pandas index of the series arguments. -/
def penman (wind elevation latitude : ℝ) (j : ℕ) (solar : ℝ) (net : Option ℝ)
    (sflux tmax tmin : ℝ) (rhmax rhmin rh n nn rso : Option ℝ) (a b : ℝ) : Option ℝ := do
  let ta := (tmax + tmin) / 2
  let pressure := press_calc elevation 5.26
  let gamma := psy_calc pressure none
  let dlt ← vpc_calc (some ta) none none 0
  let lambd := lambda_calc ta
  let ea ← ea_calc tmax tmin rhmax rhmin rh
  let es := es_calc tmax tmin
  let netV ← match net with
    | some nv => pure nv
    | none => do
        let rns ← shortwave_r (some solar) j latitude 0.23 n nn
        let rnl ← longwave_r j solar tmax tmin rhmax rhmin rh rso elevation latitude (some ea)
        pure (rns - rnl)
  let w := a * (1 + b * wind)
  let den := lambd * (dlt + gamma)
  let num1 := dlt * (netV - sflux) / den
  let num2 := gamma * (es - ea) * w / den
  pure (num1 + num2)

/-- FAO-56 Penman-Monteith evapotranspiration (`pm_fao56`, penman.py). -/
def pm_fao56 (wind elevation latitude : ℝ) (j : ℕ) (solar : ℝ) (net : Option ℝ)
    (sflux tmax tmin : ℝ) (rhmax rhmin rh n nn rso : Option ℝ) : Option ℝ := do
  let ta := (tmax + tmin) / 2
  let pressure := press_calc elevation 5.26
  let gamma := psy_calc pressure none
  let dlt ← vpc_calc (some ta) none none 0
  let gamma1 := gamma * (1 + 0.34 * wind)
  let ea ← ea_calc tmax tmin rhmax rhmin rh
  let es := es_calc tmax tmin
  let netV ← match net with
    | some nv => pure nv
    | none => do
        let rns ← shortwave_r (some solar) j latitude 0.23 n nn
        let rnl ← longwave_r j solar tmax tmin rhmax rhmin rh rso elevation latitude (some ea)
        pure (rns - rnl)
  let den := dlt + gamma1
  let num1 := 0.408 * dlt * (netV - sflux)
  let num2 := gamma * (es - ea) * 900 * wind / (ta + 273)
  pure ((num1 + num2) / den)

/-- Penman-Monteith 1965 evapotranspiration (`pm_1965`, penman.py). -/
def pm_1965 (wind elevation latitude : ℝ) (j : ℕ) (solar : ℝ) (net : Option ℝ)
    (sflux tmax tmin : ℝ) (rhmax rhmin rh n nn rso lai : Option ℝ)
    (rc ra : ℕ) : Option ℝ := do
  let ta := (tmax + tmin) / 2
  let lambd := lambda_calc ta
  let pressure := press_calc elevation 5.26
  let gamma := psy_calc pressure none
  let dlt ← vpc_calc (some ta) none none 0
  let cp : ℝ := 1.01
  let rho_a := calc_rhoa pressure ta
  let r_a ← calc_ra (some wind) none ra
  let r_c ← (rc_calc lai rc).toValue
  let gamma1 := gamma * (1 + r_c / r_a)
  let ea ← ea_calc tmax tmin rhmax rhmin rh
  let es := es_calc tmax tmin
  let netV ← match net with
    | some nv => pure nv
    | none => do
        let rns ← shortwave_r (some solar) j latitude 0.23 n nn
        let rnl ← longwave_r j solar tmax tmin rhmax rhmin rh rso elevation latitude (some ea)
        pure (rns - rnl)
  let den := lambd * (dlt + gamma1)
  let num1 := dlt * (netV - sflux) / den
  let num2 := rho_a * cp * 86400 * (es - ea) / r_a / den
  pure (num1 + num2)

/-- FAO-1990 Penman-Monteith evapotranspiration (`pm_fao1990`, penman.py).
The source computes `aerdyn = calc_ra(croph=croph, method=2)`, omitting the
`wind` argument of `calc_ra`, whose method-2 branch ends in `/ wind`. -/
def pm_fao1990 (wind elevation latitude : ℝ) (j : ℕ) (solar tmax tmin rh : ℝ)
    (croph : Option ℝ) : Option (ℝ × ℝ × ℝ × ℝ × ℝ) := do
  let ta := (round8 tmax + round8 tmin) / 2
  let lambd := round8 (lambda_calc ta)
  let pressure := press_calc elevation 5.253
  let gamma := psy_calc pressure (some lambd)
  let eamax := e0_calc tmax
  let eamin := e0_calc tmin
  let dlt ← vpc_calc none (some tmin) (some tmax) 1
  let aerdyn ← calc_ra none croph 2
  let raa := aerdyn / wind
  let gamma1 := gamma * (1 + 60 / raa)
  let eamean := (eamax + eamin) / 2
  let eadew := ed_calc tmax tmin rh
  let gm_dl := gamma / (dlt + gamma1)
  let aerotcff := 0.622 * 3.486 * 86400 / aerdyn / 1.01
  let etaero := gm_dl * aerotcff / (ta + 273) * wind * (eamean - eadew)
  let dl_dl := dlt / (dlt + gamma1)
  let rns ← calc_rns (some solar) j latitude 0.23
  let rsoV := rs_calc j latitude 0.25 0.5
  let cloudf := cloudiness_factor solar rsoV 1.35 (-0.35)
  let rnl := calc_rnl tmax tmin eadew cloudf 0.34 (-0.139)
  let rn := rns - rnl
  let radterm := dl_dl * (rn - 0) / lambd
  let pm := (etaero + radterm) *
    (1 - 7.37e-6 * (ta - 4) ^ 2 + 3.79e-8 * (ta - 4) ^ 3)
  pure (rnl, rns, radterm, etaero, pm)

/-- Priestley-Taylor evapotranspiration (`priestley_taylor`, penman.py).  The
source computes `ea` before the net-radiation branch but consumes it only on
the fallback path, so a humidity failure is only observable when `net` is
omitted. -/
def priestley_taylor (wind elevation latitude : ℝ) (j : ℕ) (solar : ℝ) (net : Option ℝ)
    (tmax tmin : ℝ) (rhmax rhmin rh rso n nn : Option ℝ) (alpha : ℝ) : Option ℝ := do
  let ta := (tmax + tmin) / 2
  let lambd := lambda_calc ta
  let pressure := press_calc elevation 5.26
  let gamma := psy_calc pressure none
  let dlt ← vpc_calc (some ta) none none 0
  match net with
  | some nv => pure (alpha * dlt * nv / (lambd * (dlt + gamma)))
  | none => do
      let ea ← ea_calc tmax tmin rhmax rhmin rh
      let rns ← shortwave_r (some solar) j latitude 0.23 n nn
      let rnl ← longwave_r j solar tmax tmin rhmax rhmin rh rso elevation latitude (some ea)
      pure (alpha * dlt * (rns - rnl) / (lambd * (dlt + gamma)))

/-- Makkink (1957) evapotranspiration (`makkink`, penman.py). -/
def makkink (tmax tmin rs elevation f : ℝ) : Option ℝ := do
  let ta := (tmax + tmin) / 2
  let pressure := press_calc elevation 5.26
  let gamma := psy_calc pressure none
  let dlt ← vpc_calc (some ta) none none 0
  pure (f / 2.45 * 0.61 * rs * dlt / (dlt + gamma) - 0.12)

/-- Elementwise application of a scalar function to a time series; a missing
(NaN) entry stays missing. -/
def seriesMap (f : ℝ → ℝ) (xs : List (Option ℝ)) : List (Option ℝ) := xs.map (Option.map f)

/-- Pandas-style aligned binary arithmetic on two series sharing a default
RangeIndex: positions present in only one operand yield a missing value (NaN,
modelled by `none`); no length check is performed and no error is raised. -/
def alignWith (f : ℝ → ℝ → ℝ) : List (Option ℝ) → List (Option ℝ) → List (Option ℝ)
  | [], [] => []
  | [], _ :: ys => none :: alignWith f [] ys
  | _ :: xs, [] => none :: alignWith f xs []
  | x :: xs, y :: ys =>
      (match x, y with
       | some xv, some yv => some (f xv yv)
       | _, _ => none) :: alignWith f xs ys

/-- `es_calc` applied to whole series, with the pandas alignment semantics of
its `(eamax + eamin) / 2` arithmetic made explicit. -/
def es_calc_series (tmax tmin : List (Option ℝ)) : List (Option ℝ) :=
  alignWith (fun a b => (a + b) / 2) (seriesMap e0_calc tmax) (seriesMap e0_calc tmin)

/-- C1: with none of `rhmax`, `rhmin`, `rh` supplied, `ea_calc` does not raise
a recoverable `MissingInputError`: it prints a diagnostic and returns Python
`None` (modelled by `none`), and `pm_fao56` called without humidity therefore
fails with a downstream `TypeError` instead of a `MissingInputError`. -/
theorem ea_calc_missing_humidity_returns_none :
    ea_calc 25 15 none none none = none ∧
    pm_fao56 2 100 0.5 1 20 none 0 25 15 none none none none none none = none :=
  ⟨rfl, rfl⟩

/-- C2: `pm_fao1990` never completes: it calls `calc_ra(croph=croph, method=2)`
without the `wind` argument, and the method-2 branch of `calc_ra` ends in
`/ wind`, a Python `TypeError` on `None`; no 5-tuple is ever returned. -/
theorem pm_fao1990_never_returns :
    calc_ra none (some 0.12) 2 = none ∧
    pm_fao1990 2 100 0.5 1 20 25 15 60 (some 0.12) = none ∧
    pm_fao1990 2 100 0.5 1 20 25 15 60 none = none :=
  ⟨rfl, rfl, rfl⟩

/-- C5: `rc_calc` returns the constant 70 for method 1 and `200 / lai` for
method 2, but with method 2 and `lai` absent it hits an unguarded
`200 / None` (Python `TypeError`), and with `lai = 0` an unguarded division
by zero (`ZeroDivisionError`) — not a `MissingInputError`. -/
theorem rc_calc_unguarded_division :
    rc_calc none 1 = RcResult.val 70 ∧
    rc_calc (some 4) 2 = RcResult.val 50 ∧
    rc_calc none 2 = RcResult.typeError ∧
    rc_calc (some 0) 2 = RcResult.zeroDivisionError := by
  refine ⟨rfl, ?_, rfl, ?_⟩
  · norm_num [rc_calc]
  · norm_num [rc_calc]

/-- C7: with `tmin = tmax` and `rh = 100` (and `rhmax`, `rhmin` not supplied),
`ea_calc` returns exactly the saturation vapour pressure `e0_calc tmax`. -/
theorem ea_calc_saturated (t : ℝ) :
    ea_calc t t none none (some 100) = some (e0_calc t) := by
  simp only [ea_calc]
  congr 1
  ring

/-- C10: whenever `rhmax` or `rhmin` is supplied, the result of `ea_calc` does
not depend on the `rh` argument. -/
theorem ea_calc_rh_ignored (tmax tmin : ℝ) (rhmax rhmin rh rh' : Option ℝ)
    (h : rhmax.isSome ∨ rhmin.isSome) :
    ea_calc tmax tmin rhmax rhmin rh = ea_calc tmax tmin rhmax rhmin rh' := by
  cases rhmax <;> cases rhmin <;> simp_all [ea_calc]

/-- Witness for C10 at a concrete input. -/
theorem ea_calc_rh_ignored_witness :
    ((some (80 : ℝ)).isSome ∨ (none : Option ℝ).isSome) ∧
    ea_calc 25 15 (some 80) none (some 10) = ea_calc 25 15 (some 80) none (some 90) :=
  ⟨Or.inl rfl, ea_calc_rh_ignored 25 15 (some 80) none (some 10) (some 90) (Or.inl rfl)⟩

/-- C4: no component checks that its series arguments have equal length; with
a two-entry `tmax` and a one-entry `tmin`, `es_calc` silently returns a series
padded with a missing value (NaN) instead of raising a `ShapeMismatchError`. -/
theorem es_calc_series_silent_alignment :
    es_calc_series [some 25, some 24] [some 15] =
      [some ((e0_calc 25 + e0_calc 15) / 2), none] := by
  simp [es_calc_series, seriesMap, alignWith]

/-- C6 counterexample: `e0_calc` is not strictly increasing on all of ℝ; it
blows up across the pole of its exponent at `T = -237.3`. -/
theorem e0_calc_not_globally_increasing :
    (-238 : ℝ) < 0 ∧ e0_calc 0 < e0_calc (-238) := by
  refine ⟨by norm_num, ?_⟩
  unfold e0_calc
  have h1 : (17.27 * 0 / (0 + 237.3) : ℝ) = 0 := by norm_num
  have h2 : (0 : ℝ) < 17.27 * (-238) / (-238 + 237.3) := by norm_num
  have h3 : (1 : ℝ) < Real.exp (17.27 * (-238) / (-238 + 237.3)) := Real.one_lt_exp_iff.mpr h2
  rw [h1, Real.exp_zero]
  nlinarith

/-- C6 (amended): `e0_calc` is strictly increasing on temperatures above the
pole `-237.3` (which contains every physical temperature in °C), and its
value at 0 °C is exactly 0.6108 kPa. -/
theorem e0_calc_strictMono_above_pole :
    (∀ a b : ℝ, -237.3 < a → a < b → e0_calc a < e0_calc b) ∧ e0_calc 0 = 0.6108 := by
  constructor
  · intro a b ha hab
    have ha' : (0 : ℝ) < a + 237.3 := by linarith
    have hb' : (0 : ℝ) < b + 237.3 := by linarith
    have harg : 17.27 * a / (a + 237.3) < 17.27 * b / (b + 237.3) := by
      rw [div_lt_div_iff₀ ha' hb']
      nlinarith
    have hexp := Real.exp_lt_exp.mpr harg
    unfold e0_calc
    nlinarith [Real.exp_pos (17.27 * a / (a + 237.3))]
  · unfold e0_calc
    norm_num [Real.exp_zero]

/-- Witness for the amended C6 at concrete inputs. -/
theorem e0_calc_strictMono_above_pole_witness :
    (-237.3 : ℝ) < 0 ∧ (0 : ℝ) < 1 ∧ e0_calc 0 < e0_calc 1 :=
  ⟨by norm_num, by norm_num,
    e0_calc_strictMono_above_pole.1 0 1 (by norm_num) (by norm_num)⟩

/-- C9: in every formula call with the `net` argument omitted, the net
radiation actually used is exactly `shortwave_r − longwave_r` computed from
the same shared inputs: supplying that difference as `net` yields the same
result for each of the four formulas with a net-radiation fallback path. -/
theorem net_radiation_fallback (wind elevation latitude : ℝ) (j : ℕ)
    (solar sflux tmax tmin : ℝ) (rhmax rhmin rh n nn rso lai : Option ℝ)
    (a b alpha : ℝ) (ea rns rnl : ℝ)
    (hea : ea_calc tmax tmin rhmax rhmin rh = some ea)
    (hrns : shortwave_r (some solar) j latitude 0.23 n nn = some rns)
    (hrnl : longwave_r j solar tmax tmin rhmax rhmin rh rso elevation latitude
      (some ea) = some rnl) :
    penman wind elevation latitude j solar none sflux tmax tmin rhmax rhmin rh n nn rso a b =
      penman wind elevation latitude j solar (some (rns - rnl)) sflux tmax tmin
        rhmax rhmin rh n nn rso a b ∧
    pm_fao56 wind elevation latitude j solar none sflux tmax tmin rhmax rhmin rh n nn rso =
      pm_fao56 wind elevation latitude j solar (some (rns - rnl)) sflux tmax tmin
        rhmax rhmin rh n nn rso ∧
    pm_1965 wind elevation latitude j solar none sflux tmax tmin rhmax rhmin rh n nn rso lai 1 1 =
      pm_1965 wind elevation latitude j solar (some (rns - rnl)) sflux tmax tmin
        rhmax rhmin rh n nn rso lai 1 1 ∧
    priestley_taylor wind elevation latitude j solar none tmax tmin rhmax rhmin rh rso n nn alpha =
      priestley_taylor wind elevation latitude j solar (some (rns - rnl)) tmax tmin
        rhmax rhmin rh rso n nn alpha := by
  refine ⟨?_, ?_, ?_, ?_⟩
  · simp [penman, vpc_calc, hea, hrns, hrnl]
  · simp [pm_fao56, vpc_calc, hea, hrns, hrnl]
  · simp [pm_1965, vpc_calc, rc_calc, RcResult.toValue, calc_ra, hea, hrns, hrnl]
  · simp [priestley_taylor, vpc_calc, hea, hrns, hrnl]

/-- Actual vapour pressure at the typical input of the testable properties
(tmax 25, tmin 15, rh 60), extracted from `ea_calc`. -/
def eaTypical : ℝ := (ea_calc 25 15 none none (some 60)).getD 0

/-- Net shortwave radiation at the typical input, extracted from
`shortwave_r`. -/
def rnsTypical : ℝ := (shortwave_r (some 20) 1 0.5 0.23 none none).getD 0

/-- Net longwave radiation at the typical input, extracted from
`longwave_r`. -/
def rnlTypical : ℝ :=
  (longwave_r 1 20 25 15 none none (some 60) none 100 0.5 (some eaTypical)).getD 0

/-- Witness for C9 at a concrete input. -/
theorem net_radiation_fallback_witness :
    ea_calc 25 15 none none (some 60) = some eaTypical ∧
    shortwave_r (some 20) 1 0.5 0.23 none none = some rnsTypical ∧
    longwave_r 1 20 25 15 none none (some 60) none 100 0.5 (some eaTypical) =
      some rnlTypical ∧
    penman 2 100 0.5 1 20 none 0 25 15 none none (some 60) none none none 2.6 0.536 =
      penman 2 100 0.5 1 20 (some (rnsTypical - rnlTypical)) 0 25 15 none none
        (some 60) none none none 2.6 0.536 :=
  ⟨rfl, rfl, rfl,
    (net_radiation_fallback 2 100 0.5 1 20 0 25 15 none none (some 60) none none none
      none 2.6 0.536 1.26 eaTypical rnsTypical rnlTypical rfl rfl rfl).1⟩

/-- Claim C3 as stated: the two per-temperature slope terms of the FAO-1990
curve-slope formula, each rounded to 8 decimal digits before they are
combined. -/
def vpc_claimC3 (tmax tmin : ℝ) : ℝ :=
  round8 (2049 * e0_calc tmax / (tmax + 237.3) ^ 2) +
    round8 (2049 * e0_calc tmin / (tmin + 237.3) ^ 2)

/-- Claim C3 amended: `vpc_calc` with method 1 returns the average of the
curve slope evaluated separately at `tmax` and `tmin`, rounded to 8 decimal
digits once, after the two per-temperature terms are combined. -/
def vpc_amendedC3 (tmax tmin : ℝ) : ℝ :=
  round8 ((4098 * e0_calc tmax / (tmax + 237.3) ^ 2 +
    4098 * e0_calc tmin / (tmin + 237.3) ^ 2) / 2)

/-- Lower Taylor bound for the exponential appearing in `e0_calc 2`. -/
theorem exp_e0_two_lb : (1.15527412 : ℝ) ≤ Real.exp (1727 / 11965) := by
  refine le_trans ?_ (Real.sum_le_exp_of_nonneg (by norm_num) 7)
  rw [Finset.sum_range_succ, Finset.sum_range_succ, Finset.sum_range_succ,
    Finset.sum_range_succ, Finset.sum_range_succ, Finset.sum_range_succ,
    Finset.sum_range_succ, Finset.sum_range_zero]
  norm_num [Nat.factorial]

/-- Upper Taylor bound for the exponential appearing in `e0_calc 2`. -/
theorem exp_e0_two_ub : Real.exp (1727 / 11965) ≤ (1.15527413 : ℝ) := by
  refine le_trans (@Real.exp_bound' (1727 / 11965) (by norm_num) (by norm_num) 7
    (by norm_num)) ?_
  rw [Finset.sum_range_succ, Finset.sum_range_succ, Finset.sum_range_succ,
    Finset.sum_range_succ, Finset.sum_range_succ, Finset.sum_range_succ,
    Finset.sum_range_succ, Finset.sum_range_zero]
  norm_num [Nat.factorial]

/-- C3 counterexample: at `tmax = tmin = 2` the source (a single `round` of
the combined sum) and the claim (each term rounded before combining) differ:
the sum rounds up to 0.05049759 while twice the rounded term is 0.05049758. -/
theorem vpc_round_placement_counterexample :
    vpc_calc none (some 2) (some 2) 1 ≠ some (vpc_claimC3 2 2) := by
  have hz : (17.27 * 2 / (2 + 237.3) : ℝ) = 1727 / 11965 := by norm_num
  have he0 : e0_calc 2 = 0.6108 * Real.exp (1727 / 11965) := by rw [e0_calc, hz]
  have hlo := exp_e0_two_lb
  have hhi := exp_e0_two_ub
  have hden : ((2 : ℝ) + 237.3) ^ 2 = 57264.49 := by norm_num
  have hu_lo : (2524879.37 : ℝ) ≤ 2049 * e0_calc 2 / (2 + 237.3) ^ 2 * 10 ^ 8 := by
    rw [he0, hden, div_mul_eq_mul_div, le_div_iff₀ (by norm_num : (0 : ℝ) < 57264.49)]
    nlinarith
  have hu_hi : 2049 * e0_calc 2 / (2 + 237.3) ^ 2 * 10 ^ 8 ≤ (2524879.40 : ℝ) := by
    rw [he0, hden, div_mul_eq_mul_div, div_le_iff₀ (by norm_num : (0 : ℝ) < 57264.49)]
    nlinarith
  have hround2 : round (2049 * e0_calc 2 / (2 + 237.3) ^ 2 * 10 ^ 8) = 2524879 := by
    rw [round_eq]
    refine Int.floor_eq_iff.mpr ⟨?_, ?_⟩
    · push_cast
      linarith
    · push_cast
      linarith
  have hround1 : round ((2049 * e0_calc 2 / (2 + 237.3) ^ 2 +
      2049 * e0_calc 2 / (2 + 237.3) ^ 2) * 10 ^ 8) = 5049759 := by
    rw [round_eq]
    refine Int.floor_eq_iff.mpr ⟨?_, ?_⟩
    · push_cast
      linarith
    · push_cast
      linarith
  have hL : vpc_calc none (some 2) (some 2) 1 = some (round8
      (2049 * e0_calc 2 / (2 + 237.3) ^ 2 + 2049 * e0_calc 2 / (2 + 237.3) ^ 2)) := by
    simp [vpc_calc]
  rw [hL, vpc_claimC3]
  simp only [round8, hround1, hround2]
  intro hcontra
  norm_num at hcontra

/-- C3 (amended): method 1 of `vpc_calc` returns the average of the two
per-temperature curve-slope terms with a single rounding to 8 decimal digits
applied after they are combined. -/
theorem vpc_calc_method1_rounds_once (tmax tmin : ℝ) :
    vpc_calc none (some tmin) (some tmax) 1 = some (vpc_amendedC3 tmax tmin) := by
  simp only [vpc_calc, vpc_amendedC3]
  norm_num
  congr 1
  ring

/-- Crude upper bound for `exp 2`, used to bound vapour pressures above. -/
theorem exp_two_ub : Real.exp 2 ≤ 7.39 := by
  rw [show (2 : ℝ) = 1 + 1 by norm_num, Real.exp_add]
  nlinarith [Real.exp_one_lt_d9, Real.exp_pos 1]

/-- Lower Taylor bound for the exponential in `e0_calc 25`. -/
theorem exp_z25_lb : (5.1862 : ℝ) ≤ Real.exp (431.75 / 262.3) := by
  refine le_trans ?_ (Real.sum_le_exp_of_nonneg (by norm_num) 10)
  rw [Finset.sum_range_succ, Finset.sum_range_succ, Finset.sum_range_succ,
    Finset.sum_range_succ, Finset.sum_range_succ, Finset.sum_range_succ,
    Finset.sum_range_succ, Finset.sum_range_succ, Finset.sum_range_succ,
    Finset.sum_range_succ, Finset.sum_range_zero]
  norm_num [Nat.factorial]

/-- Upper bound for the exponential in `e0_calc 25`. -/
theorem exp_z25_ub : Real.exp (431.75 / 262.3) ≤ 7.39 :=
  le_trans (Real.exp_le_exp.mpr (by norm_num)) exp_two_ub

/-- Lower Taylor bound for the exponential in `e0_calc 15`. -/
theorem exp_z15_lb : (2.7919 : ℝ) ≤ Real.exp (259.05 / 252.3) := by
  refine le_trans ?_ (Real.sum_le_exp_of_nonneg (by norm_num) 10)
  rw [Finset.sum_range_succ, Finset.sum_range_succ, Finset.sum_range_succ,
    Finset.sum_range_succ, Finset.sum_range_succ, Finset.sum_range_succ,
    Finset.sum_range_succ, Finset.sum_range_succ, Finset.sum_range_succ,
    Finset.sum_range_succ, Finset.sum_range_zero]
  norm_num [Nat.factorial]

/-- Upper bound for the exponential in `e0_calc 15`. -/
theorem exp_z15_ub : Real.exp (259.05 / 252.3) ≤ 7.39 :=
  le_trans (Real.exp_le_exp.mpr (by norm_num)) exp_two_ub

/-- The exponent of `e0_calc 25` as a single fraction. -/
theorem e0_25_eq : e0_calc 25 = 0.6108 * Real.exp (431.75 / 262.3) := by
  rw [e0_calc, show (17.27 * 25 / (25 + 237.3) : ℝ) = 431.75 / 262.3 by norm_num]

/-- The exponent of `e0_calc 15` as a single fraction. -/
theorem e0_15_eq : e0_calc 15 = 0.6108 * Real.exp (259.05 / 252.3) := by
  rw [e0_calc, show (17.27 * 15 / (15 + 237.3) : ℝ) = 259.05 / 252.3 by norm_num]

/-- `e0_calc` is positive everywhere. -/
theorem e0_calc_pos (t : ℝ) : 0 < e0_calc t := by
  rw [e0_calc]
  positivity

/-- Bounds on the actual vapour pressure at the typical input. -/
theorem ea_typ_bounds :
    (1.4619 : ℝ) ≤ 60 / 200 * (e0_calc 25 + e0_calc 15) ∧
      60 / 200 * (e0_calc 25 + e0_calc 15) ≤ 2.709 := by
  rw [e0_25_eq, e0_15_eq]
  constructor
  · nlinarith [exp_z25_lb, exp_z15_lb]
  · nlinarith [exp_z25_ub, exp_z15_ub, Real.exp_pos (431.75 / 262.3),
      Real.exp_pos (259.05 / 252.3)]

/-- Bounds on the square root of the actual vapour pressure at the typical
input. -/
theorem sqrt_ea_typ_bounds :
    (1.209 : ℝ) ≤ Real.sqrt (60 / 200 * (e0_calc 25 + e0_calc 15)) ∧
      Real.sqrt (60 / 200 * (e0_calc 25 + e0_calc 15)) ≤ 1.65 := by
  obtain ⟨h1, h2⟩ := ea_typ_bounds
  constructor
  · have h3 : Real.sqrt ((1.209 : ℝ) ^ 2) ≤ Real.sqrt (60 / 200 * (e0_calc 25 + e0_calc 15)) :=
      Real.sqrt_le_sqrt (by nlinarith)
    rwa [Real.sqrt_sq (by norm_num)] at h3
  · have h3 : Real.sqrt (60 / 200 * (e0_calc 25 + e0_calc 15)) ≤ Real.sqrt ((1.65 : ℝ) ^ 2) :=
      Real.sqrt_le_sqrt (by nlinarith)
    rwa [Real.sqrt_sq (by norm_num)] at h3

/-- Taylor bounds for `sin 0.5`. -/
theorem sin_half_bounds : (0.47591 : ℝ) ≤ Real.sin 0.5 ∧ Real.sin 0.5 ≤ 0.48243 := by
  have h := abs_le.mp (@Real.sin_bound (0.5 : ℝ) (by rw [abs_of_nonneg] <;> norm_num))
  obtain ⟨h1, h2⟩ := h
  norm_num [abs_of_nonneg] at h1 h2 ⊢
  constructor <;> linarith

/-- Taylor lower bound for `cos 0.5`. -/
theorem cos_half_lb : (0.87174 : ℝ) ≤ Real.cos 0.5 := by
  have h := abs_le.mp (@Real.cos_bound (0.5 : ℝ) (by rw [abs_of_nonneg] <;> norm_num))
  obtain ⟨h1, h2⟩ := h
  norm_num [abs_of_nonneg] at h1 h2 ⊢
  linarith

/-- Taylor upper bound for `sin 0.409`. -/
theorem sin_409_ub : Real.sin 0.409 ≤ 0.39906 := by
  have h := abs_le.mp (@Real.sin_bound (0.409 : ℝ) (by rw [abs_of_nonneg] <;> norm_num))
  obtain ⟨h1, h2⟩ := h
  norm_num [abs_of_nonneg] at h1 h2 ⊢
  linarith

/-- Taylor lower bound for `cos 0.409`. -/
theorem cos_409_lb : (0.91490 : ℝ) ≤ Real.cos 0.409 := by
  have h := abs_le.mp (@Real.cos_bound (0.409 : ℝ) (by rw [abs_of_nonneg] <;> norm_num))
  obtain ⟨h1, h2⟩ := h
  norm_num [abs_of_nonneg] at h1 h2 ⊢
  linarith

/-- `tan 0.5` is positive. -/
theorem tan_half_pos : 0 < Real.tan 0.5 :=
  Real.tan_pos_of_pos_of_lt_pi_div_two (by norm_num) (by nlinarith [Real.pi_gt_three])

/-- Upper bound for `tan 0.5`. -/
theorem tan_half_ub : Real.tan 0.5 ≤ 0.5535 := by
  rw [Real.tan_eq_sin_div_cos]
  have hc : (0 : ℝ) < Real.cos 0.5 := lt_of_lt_of_le (by norm_num) cos_half_lb
  rw [div_le_iff₀ hc]
  nlinarith [sin_half_bounds.2, cos_half_lb]

/-- Bounds for `tan d` on the declination range `[-0.409, 0.409]`. -/
theorem tan_decl_bounds (d : ℝ) (h1 : -0.409 ≤ d) (h2 : d ≤ 0.409) :
    -0.4362 ≤ Real.tan d ∧ Real.tan d ≤ 0.4362 := by
  have hpi2 : (1.57 : ℝ) < π / 2 := by nlinarith [Real.pi_gt_d4]
  have hmem : d ∈ Set.Ioo (-(π / 2)) (π / 2) :=
    ⟨by linarith, by linarith⟩
  have hmem409 : (0.409 : ℝ) ∈ Set.Ioo (-(π / 2)) (π / 2) :=
    ⟨by linarith, by linarith⟩
  have hmem409n : (-0.409 : ℝ) ∈ Set.Ioo (-(π / 2)) (π / 2) :=
    ⟨by linarith, by linarith⟩
  have htan409 : Real.tan 0.409 ≤ 0.4362 := by
    rw [Real.tan_eq_sin_div_cos]
    have hc : (0 : ℝ) < Real.cos 0.409 := lt_of_lt_of_le (by norm_num) cos_409_lb
    rw [div_le_iff₀ hc]
    nlinarith [sin_409_ub, cos_409_lb]
  constructor
  · have h3 : Real.tan (-0.409) ≤ Real.tan d :=
      Real.strictMonoOn_tan.monotoneOn hmem409n hmem h1
    rw [Real.tan_neg] at h3
    linarith
  · have h3 : Real.tan d ≤ Real.tan 0.409 :=
      Real.strictMonoOn_tan.monotoneOn hmem hmem409 h2
    linarith

set_option maxHeartbeats 1600000 in
/-- Uniform lower bound, over the whole declination range, of the
angle-bracket factor of the extraterrestrial radiation at latitude 0.5 rad. -/
theorem sunset_bracket_lb (d : ℝ) (h1 : -0.409 ≤ d) (h2 : d ≤ 0.409) :
    (0.4714 : ℝ) ≤ Real.arccos (-Real.tan 0.5 * Real.tan d) * Real.sin d * Real.sin 0.5 +
      Real.cos d * Real.cos 0.5 * Real.sin (Real.arccos (-Real.tan 0.5 * Real.tan d)) := by
  have hpi3 := Real.pi_gt_three
  have hpi4 := Real.pi_lt_d4
  obtain ⟨htd1, htd2⟩ := tan_decl_bounds d h1 h2
  have ht5p := tan_half_pos
  have ht5u := tan_half_ub
  set x := -Real.tan 0.5 * Real.tan d with hxdef
  have hx_ub : x ≤ 0.24144 := by nlinarith
  have hx_lb : -0.24144 ≤ x := by nlinarith
  have hxsq : x ^ 2 ≤ 0.0583 := by nlinarith
  have hsinw : Real.sin (Real.arccos x) = Real.sqrt (1 - x ^ 2) := Real.sin_arccos x
  have hsinw_lb : (0.97041 : ℝ) ≤ Real.sqrt (1 - x ^ 2) := by
    rw [Real.le_sqrt' (by norm_num)]
    nlinarith
  have hw_nonneg : 0 ≤ Real.arccos x := Real.arccos_nonneg x
  have hcosd : (0.91490 : ℝ) ≤ Real.cos d := by
    have habs : |d| ≤ 0.409 := abs_le.mpr ⟨h1, h2⟩
    have h3 : Real.cos 0.409 ≤ Real.cos |d| :=
      Real.cos_le_cos_of_nonneg_of_le_pi (abs_nonneg d) (by linarith) habs
    rw [Real.cos_abs] at h3
    linarith [cos_409_lb]
  obtain ⟨hs5l, hs5u⟩ := sin_half_bounds
  have hc5l := cos_half_lb
  have hterm2 : (0.7739 : ℝ) ≤ Real.cos d * Real.cos 0.5 * Real.sin (Real.arccos x) := by
    rw [hsinw]
    have p1 : (0.7975 : ℝ) ≤ Real.cos d * Real.cos 0.5 := by nlinarith
    nlinarith [Real.sqrt_nonneg (1 - x ^ 2)]
  rcases le_or_lt 0 d with hd0 | hd0
  · have hsind : 0 ≤ Real.sin d :=
      Real.sin_nonneg_of_nonneg_of_le_pi hd0 (by linarith)
    have hterm1 : 0 ≤ Real.arccos x * Real.sin d * Real.sin 0.5 := by
      have := mul_nonneg (mul_nonneg hw_nonneg hsind) (by linarith : (0 : ℝ) ≤ Real.sin 0.5)
      linarith
    linarith
  · have htannp : Real.tan d ≤ 0 :=
      Real.tan_nonpos_of_nonpos_of_neg_pi_div_two_le (le_of_lt hd0) (by linarith)
    have hx_nonneg : 0 ≤ x := by nlinarith
    have hw_ub : Real.arccos x ≤ 1.5708 := by
      have h3 : Real.arccos x ≤ π / 2 := Real.arccos_le_pi_div_two.mpr hx_nonneg
      linarith
    have hsind_lb : (-0.39906 : ℝ) ≤ Real.sin d := by
      have h3 : Real.sin (-d) ≤ Real.sin 0.409 :=
        Real.sin_le_sin_of_le_of_le_pi_div_two (by linarith) (by linarith) (by linarith)
      rw [Real.sin_neg] at h3
      linarith [sin_409_ub]
    have hsind_ub : Real.sin d ≤ 0 := by
      have h3 : 0 ≤ Real.sin (-d) :=
        Real.sin_nonneg_of_nonneg_of_le_pi (by linarith) (by linarith)
      rw [Real.sin_neg] at h3
      linarith
    have hq1 : (-0.19252 : ℝ) ≤ Real.sin d * Real.sin 0.5 := by nlinarith
    have hq0 : Real.sin d * Real.sin 0.5 ≤ 0 :=
      mul_nonpos_iff.mpr (Or.inr ⟨hsind_ub, by linarith⟩)
    have hterm1 : (-0.30242 : ℝ) ≤ Real.arccos x * Real.sin d * Real.sin 0.5 := by
      have h3 : Real.arccos x * (Real.sin d * Real.sin 0.5) ≥ 1.5708 * (-0.19252) := by
        nlinarith
      nlinarith
    linarith

/-- The solar declination lies in `[-0.409, 0.409]` for every day index. -/
theorem solar_declination_bounds (j : ℕ) :
    -0.409 ≤ solar_declination j ∧ solar_declination j ≤ 0.409 := by
  rw [solar_declination]
  constructor
  · nlinarith [Real.neg_one_le_sin (2 * π * j / 365 - 1.39)]
  · nlinarith [Real.sin_le_one (2 * π * j / 365 - 1.39)]

/-- The relative earth-sun distance factor is at least 0.967. -/
theorem relative_distance_lb (j : ℕ) : (0.967 : ℝ) ≤ relative_distance j := by
  rw [relative_distance]
  nlinarith [Real.neg_one_le_cos (2 * π * j / 365)]

/-- Lower bound for the spec-modelled extraterrestrial radiation at latitude
0.5 rad, uniform over the day of year. -/
theorem extraterrestrial_typ_lb (j : ℕ) : (17.13 : ℝ) ≤ extraterrestrial_r j 0.5 := by
  obtain ⟨hd1, hd2⟩ := solar_declination_bounds j
  have hdr := relative_distance_lb j
  have hB := sunset_bracket_lb (solar_declination j) hd1 hd2
  have hgsc : (37.5859 : ℝ) ≤ 24 * 60 * 0.082 / π := by
    rw [le_div_iff₀ Real.pi_pos]
    nlinarith [Real.pi_lt_d4]
  have hgsc_pos : (0 : ℝ) < 24 * 60 * 0.082 / π := by positivity
  simp only [extraterrestrial_r, sunset_angle]
  have p1 : (36.345 : ℝ) ≤ 24 * 60 * 0.082 / π * relative_distance j := by nlinarith
  nlinarith [p1, hB]

/-- Lower bound for the clear-sky radiation used on the net-radiation fallback
path at elevation 100 m and latitude 0.5 rad. -/
theorem rso_typ_lb (j : ℕ) : (12.88 : ℝ) ≤ rso_calc (extraterrestrial_r j 0.5) 100 := by
  have h := extraterrestrial_typ_lb j
  rw [rso_calc, show (0.75 + 2 * (10 : ℝ) ^ (-5 : ℤ) * 100 : ℝ) = 0.752 by norm_num]
  nlinarith

/-- Atmospheric pressure at 100 m elevation is positive. -/
theorem press_typ_pos : 0 < press_calc 100 5.26 := by
  rw [press_calc, show ((293 : ℝ) - 0.0065 * 100) / 293 = 292.35 / 293 by norm_num]
  positivity

/-- Atmospheric pressure at 100 m elevation is below the sea-level value. -/
theorem press_typ_ub : press_calc 100 5.26 ≤ 101.3 := by
  rw [press_calc, show ((293 : ℝ) - 0.0065 * 100) / 293 = 292.35 / 293 by norm_num]
  nlinarith [Real.rpow_le_one (show (0 : ℝ) ≤ 292.35 / 293 by norm_num)
    (show (292.35 / 293 : ℝ) ≤ 1 by norm_num) (show (0 : ℝ) ≤ 5.26 by norm_num)]

/-- The psychrometric constant at the typical input is positive. -/
theorem gamma_typ_pos : 0 < psy_calc (press_calc 100 5.26) none := by
  simp only [psy_calc]
  nlinarith [press_typ_pos]

/-- Upper bound for the psychrometric constant at the typical input. -/
theorem gamma_typ_ub : psy_calc (press_calc 100 5.26) none ≤ 0.0674 := by
  simp only [psy_calc]
  nlinarith [press_typ_ub, press_typ_pos]

/-- The vapour-pressure-curve slope at mean temperature 20 °C is positive. -/
theorem dlt_typ_pos : 0 < 4098 * e0_calc ((25 + 15) / 2) / (((25 + 15) / 2 : ℝ) + 237.3) ^ 2 := by
  have h := e0_calc_pos ((25 + 15) / 2)
  apply div_pos (by nlinarith) (by norm_num)

/-- Lower bound for the vapour-pressure-curve slope at mean temperature
20 °C. -/
theorem dlt_typ_lb :
    (0.0378 : ℝ) ≤ 4098 * e0_calc ((25 + 15) / 2) / (((25 + 15) / 2 : ℝ) + 237.3) ^ 2 := by
  rw [e0_calc, le_div_iff₀ (by norm_num : (0 : ℝ) < (((25 + 15) / 2 : ℝ) + 237.3) ^ 2)]
  have harg : (0 : ℝ) ≤ 17.27 * ((25 + 15) / 2) / ((25 + 15) / 2 + 237.3) := by norm_num
  nlinarith [Real.one_le_exp harg]

/-- Stefan-Boltzmann factor of `longwave_r` at the typical temperatures. -/
def tmp1Typ : ℝ := 4.903 * (10 : ℝ) ^ (-9 : ℤ) * ((25 + 273.2) ^ 4 + (15 + 273.2) ^ 4) / 2

/-- Humidity factor of `longwave_r` at the typical input. -/
def tmp2Typ : ℝ := 0.34 - 0.14 * Real.sqrt (60 / 200 * (e0_calc 25 + e0_calc 15))

/-- Clear-sky radiation of the fallback path at the typical site. -/
def rsoTyp (j : ℕ) : ℝ := rso_calc (extraterrestrial_r j 0.5) 100

/-- Net radiation computed by the fallback path of the penman-family formulas
at the typical input (tmax 25, tmin 15, rh 60, elevation 100, latitude 0.5),
as a function of the day of year and the solar radiation. -/
def netTyp (j : ℕ) (s : ℝ) : ℝ :=
  (1 - 0.23) * s - tmp1Typ * tmp2Typ * (1.35 * (s / rsoTyp j) - 0.35)

/-- Numeric bounds for the Stefan-Boltzmann factor. -/
theorem tmp1Typ_bounds : (36.29 : ℝ) ≤ tmp1Typ ∧ tmp1Typ ≤ 36.2974 := by
  constructor <;> norm_num [tmp1Typ]

/-- Numeric bounds for the humidity factor. -/
theorem tmp2Typ_bounds : (0.109 : ℝ) ≤ tmp2Typ ∧ tmp2Typ ≤ 0.17074 := by
  obtain ⟨h1, h2⟩ := sqrt_ea_typ_bounds
  rw [tmp2Typ]
  constructor <;> linarith

/-- Lower bound for the clear-sky radiation abbreviation. -/
theorem rsoTyp_lb (j : ℕ) : (12.88 : ℝ) ≤ rsoTyp j := rso_typ_lb j

/-- Positivity of the clear-sky radiation abbreviation. -/
theorem rsoTyp_pos (j : ℕ) : 0 < rsoTyp j := lt_of_lt_of_le (by norm_num) (rsoTyp_lb j)

/-- The fallback net radiation is affine in the solar radiation. -/
theorem netTyp_eq (j : ℕ) (s : ℝ) :
    netTyp j s = (0.77 - 1.35 * tmp1Typ * tmp2Typ / rsoTyp j) * s +
      0.35 * (tmp1Typ * tmp2Typ) := by
  have hR := rsoTyp_pos j
  rw [netTyp]
  field_simp
  ring

/-- The solar coefficient of the fallback net radiation is at least 0.1. -/
theorem netTyp_slope_lb (j : ℕ) :
    (0.1 : ℝ) ≤ 0.77 - 1.35 * tmp1Typ * tmp2Typ / rsoTyp j := by
  obtain ⟨h1a, h1b⟩ := tmp1Typ_bounds
  obtain ⟨h2a, h2b⟩ := tmp2Typ_bounds
  have hR := rsoTyp_lb j
  have hRpos := rsoTyp_pos j
  have hdiv : 1.35 * tmp1Typ * tmp2Typ / rsoTyp j ≤ 0.67 := by
    rw [div_le_iff₀ hRpos]
    nlinarith
  linarith

/-- The fallback net radiation strictly increases with solar radiation. -/
theorem netTyp_mono (j : ℕ) (s₁ s₂ : ℝ) (h : s₁ < s₂) : netTyp j s₁ < netTyp j s₂ := by
  rw [netTyp_eq, netTyp_eq]
  nlinarith [netTyp_slope_lb j,
    mul_pos (lt_of_lt_of_le (by norm_num : (0 : ℝ) < 0.1) (netTyp_slope_lb j))
      (sub_pos.mpr h)]

/-- The fallback net radiation is positive at solar radiation 20. -/
theorem netTyp_pos20 (j : ℕ) : 0 < netTyp j 20 := by
  obtain ⟨h1a, h1b⟩ := tmp1Typ_bounds
  obtain ⟨h2a, h2b⟩ := tmp2Typ_bounds
  have hR := rsoTyp_lb j
  have hRpos := rsoTyp_pos j
  rw [netTyp]
  rcases le_or_lt (1.35 * (20 / rsoTyp j) - 0.35) 0 with h3 | h3
  · have hp : 0 ≤ tmp1Typ * tmp2Typ := by nlinarith
    nlinarith [mul_nonpos_of_nonneg_of_nonpos hp h3]
  · have hdiv : (20 : ℝ) / rsoTyp j ≤ 20 / 12.88 :=
      div_le_div_of_nonneg_left (by norm_num) (by norm_num) hR
    have ht3 : 1.35 * (20 / rsoTyp j) - 0.35 ≤ 1.7463 := by nlinarith
    have h12 : tmp1Typ * tmp2Typ ≤ 6.1975 := by nlinarith
    have hprod : tmp1Typ * tmp2Typ * (1.35 * (20 / rsoTyp j) - 0.35) ≤ 6.1975 * 1.7463 :=
      mul_le_mul h12 ht3 (le_of_lt h3) (by norm_num)
    nlinarith

/-- Value of `penman` at the typical input, as a function of the day of year
and the solar radiation; definitionally equal to the formula's result. -/
def penV (j : ℕ) (s : ℝ) : ℝ :=
  let ta : ℝ := (25 + 15) / 2
  let pressure := press_calc 100 5.26
  let gamma := psy_calc pressure none
  let dlt := 4098 * e0_calc ta / (ta + 237.3) ^ 2
  let lambd := lambda_calc ta
  let ea : ℝ := 60 / 200 * (e0_calc 25 + e0_calc 15)
  let es := es_calc 25 15
  let netV := netTyp j s
  let w : ℝ := 2.6 * (1 + 0.536 * 2)
  let den := lambd * (dlt + gamma)
  dlt * (netV - 0) / den + gamma * (es - ea) * w / den

/-- Value of `pm_fao56` at the typical input. -/
def fao56V (j : ℕ) (s : ℝ) : ℝ :=
  let ta : ℝ := (25 + 15) / 2
  let pressure := press_calc 100 5.26
  let gamma := psy_calc pressure none
  let dlt := 4098 * e0_calc ta / (ta + 237.3) ^ 2
  let gamma1 := gamma * (1 + 0.34 * 2)
  let ea : ℝ := 60 / 200 * (e0_calc 25 + e0_calc 15)
  let es := es_calc 25 15
  let netV := netTyp j s
  let den := dlt + gamma1
  let num1 := 0.408 * dlt * (netV - 0)
  let num2 := gamma * (es - ea) * 900 * 2 / (ta + 273)
  (num1 + num2) / den

/-- Value of `pm_1965` at the typical input (default resistances). -/
def pm1965V (j : ℕ) (s : ℝ) : ℝ :=
  let ta : ℝ := (25 + 15) / 2
  let lambd := lambda_calc ta
  let pressure := press_calc 100 5.26
  let gamma := psy_calc pressure none
  let dlt := 4098 * e0_calc ta / (ta + 237.3) ^ 2
  let cp : ℝ := 1.01
  let rho_a := calc_rhoa pressure ta
  let r_a : ℝ := 208 / 2
  let r_c : ℝ := 70
  let gamma1 := gamma * (1 + r_c / r_a)
  let ea : ℝ := 60 / 200 * (e0_calc 25 + e0_calc 15)
  let es := es_calc 25 15
  let netV := netTyp j s
  let den := lambd * (dlt + gamma1)
  dlt * (netV - 0) / den + rho_a * cp * 86400 * (es - ea) / r_a / den

/-- Value of `priestley_taylor` at the typical input. -/
def ptV (j : ℕ) (s : ℝ) : ℝ :=
  let ta : ℝ := (25 + 15) / 2
  let lambd := lambda_calc ta
  let pressure := press_calc 100 5.26
  let gamma := psy_calc pressure none
  let dlt := 4098 * e0_calc ta / (ta + 237.3) ^ 2
  1.26 * dlt * netTyp j s / (lambd * (dlt + gamma))

/-- Value of `makkink` at the typical input. -/
def makV (s : ℝ) : ℝ :=
  let ta : ℝ := (25 + 15) / 2
  let pressure := press_calc 100 5.26
  let gamma := psy_calc pressure none
  let dlt := 4098 * e0_calc ta / (ta + 237.3) ^ 2
  1 / 2.45 * 0.61 * s * dlt / (dlt + gamma) - 0.12

/-- `penman` at the typical input evaluates to `penV`. -/
theorem penman_typ_eval (j : ℕ) (s : ℝ) :
    penman 2 100 0.5 j s none 0 25 15 none none (some 60) none none none 2.6 0.536 =
      some (penV j s) := rfl

/-- `pm_fao56` at the typical input evaluates to `fao56V`. -/
theorem pm_fao56_typ_eval (j : ℕ) (s : ℝ) :
    pm_fao56 2 100 0.5 j s none 0 25 15 none none (some 60) none none none =
      some (fao56V j s) := rfl

/-- `pm_1965` at the typical input evaluates to `pm1965V`. -/
theorem pm_1965_typ_eval (j : ℕ) (s : ℝ) :
    pm_1965 2 100 0.5 j s none 0 25 15 none none (some 60) none none none none 1 1 =
      some (pm1965V j s) := rfl

/-- `priestley_taylor` at the typical input evaluates to `ptV`. -/
theorem priestley_taylor_typ_eval (j : ℕ) (s : ℝ) :
    priestley_taylor 2 100 0.5 j s none 25 15 none none (some 60) none none none 1.26 =
      some (ptV j s) := rfl

/-- `makkink` at the typical input evaluates to `makV`. -/
theorem makkink_typ_eval (s : ℝ) :
    makkink 25 15 s 100 1 = some (makV s) := rfl

/-- Sum of two fractions over a positive denominator is nonnegative. -/
theorem sum_div_nonneg (a b den : ℝ) (ha : 0 ≤ a) (hb : 0 ≤ b) (hden : 0 < den) :
    0 ≤ a / den + b / den := by
  have h1 := div_nonneg ha hden.le
  have h2 := div_nonneg hb hden.le
  linarith

/-- Sum of two fractions over a positive denominator is monotone in the first
numerator. -/
theorem sum_div_mono (a₁ a₂ b den : ℝ) (h : a₁ < a₂) (hden : 0 < den) :
    a₁ / den + b / den < a₂ / den + b / den := by
  have h2 : a₁ / den < a₂ / den := by gcongr
  linarith

/-- Positivity of the latent heat at mean temperature 20 °C. -/
theorem lambd_typ_pos : (0 : ℝ) < lambda_calc ((25 + 15) / 2) := by
  rw [lambda_calc]
  norm_num

/-- Positivity of the saturation-vapor-pressure surplus at the typical
input. -/
theorem esea_typ_pos : (0 : ℝ) < es_calc 25 15 - 60 / 200 * (e0_calc 25 + e0_calc 15) := by
  rw [es_calc]
  nlinarith [e0_calc_pos 25, e0_calc_pos 15]

/-- Positivity of the air density at the typical input. -/
theorem rhoa_typ_pos : (0 : ℝ) < calc_rhoa (press_calc 100 5.26) ((25 + 15) / 2) := by
  rw [calc_rhoa]
  exact div_pos press_typ_pos (by norm_num)

/-- `penman` value is nonnegative at the typical input with solar 20. -/
theorem penV_nonneg20 (j : ℕ) : 0 ≤ penV j 20 := by
  simp only [penV]
  refine sum_div_nonneg _ _ _ ?_ ?_ (mul_pos lambd_typ_pos (add_pos dlt_typ_pos gamma_typ_pos))
  · nlinarith [dlt_typ_pos, netTyp_pos20 j]
  · nlinarith [gamma_typ_pos, esea_typ_pos]

/-- `penman` value strictly increases with solar radiation. -/
theorem penV_mono (j : ℕ) (s₁ s₂ : ℝ) (h : s₁ < s₂) : penV j s₁ < penV j s₂ := by
  simp only [penV]
  refine sum_div_mono _ _ _ _ ?_ (mul_pos lambd_typ_pos (add_pos dlt_typ_pos gamma_typ_pos))
  nlinarith [dlt_typ_pos, netTyp_mono j s₁ s₂ h]

/-- `pm_fao56` value is nonnegative at the typical input with solar 20. -/
theorem fao56V_nonneg20 (j : ℕ) : 0 ≤ fao56V j 20 := by
  simp only [fao56V]
  have hg1 : (0 : ℝ) < psy_calc (press_calc 100 5.26) none * (1 + 0.34 * 2) := by
    nlinarith [gamma_typ_pos]
  refine div_nonneg ?_ (le_of_lt (add_pos dlt_typ_pos hg1))
  have h1 : (0 : ℝ) ≤ 0.408 * (4098 * e0_calc ((25 + 15) / 2) /
      ((25 + 15) / 2 + 237.3) ^ 2) * (netTyp j 20 - 0) := by
    nlinarith [dlt_typ_pos, netTyp_pos20 j]
  have h2 : (0 : ℝ) ≤ psy_calc (press_calc 100 5.26) none *
      (es_calc 25 15 - 60 / 200 * (e0_calc 25 + e0_calc 15)) * 900 * 2 /
      ((25 + 15) / 2 + 273) := by
    refine div_nonneg ?_ (by norm_num)
    nlinarith [gamma_typ_pos, esea_typ_pos]
  nlinarith [h1, h2]

/-- `pm_fao56` value strictly increases with solar radiation. -/
theorem fao56V_mono (j : ℕ) (s₁ s₂ : ℝ) (h : s₁ < s₂) : fao56V j s₁ < fao56V j s₂ := by
  simp only [fao56V]
  have hg1 : (0 : ℝ) < psy_calc (press_calc 100 5.26) none * (1 + 0.34 * 2) := by
    nlinarith [gamma_typ_pos]
  have hden : (0 : ℝ) < 4098 * e0_calc ((25 + 15) / 2) / ((25 + 15) / 2 + 237.3) ^ 2 +
      psy_calc (press_calc 100 5.26) none * (1 + 0.34 * 2) := add_pos dlt_typ_pos hg1
  have hnum : 0.408 * (4098 * e0_calc ((25 + 15) / 2) / ((25 + 15) / 2 + 237.3) ^ 2) *
      (netTyp j s₁ - 0) < 0.408 * (4098 * e0_calc ((25 + 15) / 2) /
      ((25 + 15) / 2 + 237.3) ^ 2) * (netTyp j s₂ - 0) := by
    nlinarith [dlt_typ_pos, netTyp_mono j s₁ s₂ h]
  rw [div_lt_div_iff_of_pos_right hden]
  linarith

/-- `pm_1965` value is nonnegative at the typical input with solar 20. -/
theorem pm1965V_nonneg20 (j : ℕ) : 0 ≤ pm1965V j 20 := by
  simp only [pm1965V]
  have hg1 : (0 : ℝ) < psy_calc (press_calc 100 5.26) none * (1 + 70 / (208 / 2)) := by
    nlinarith [gamma_typ_pos]
  refine sum_div_nonneg _ _ _ ?_ ?_ (mul_pos lambd_typ_pos (add_pos dlt_typ_pos hg1))
  · nlinarith [dlt_typ_pos, netTyp_pos20 j]
  · have h2 : (0 : ℝ) ≤ calc_rhoa (press_calc 100 5.26) ((25 + 15) / 2) * 1.01 * 86400 *
        (es_calc 25 15 - 60 / 200 * (e0_calc 25 + e0_calc 15)) := by
      nlinarith [rhoa_typ_pos, esea_typ_pos]
    exact div_nonneg h2 (by norm_num)

/-- `pm_1965` value strictly increases with solar radiation. -/
theorem pm1965V_mono (j : ℕ) (s₁ s₂ : ℝ) (h : s₁ < s₂) : pm1965V j s₁ < pm1965V j s₂ := by
  simp only [pm1965V]
  have hg1 : (0 : ℝ) < psy_calc (press_calc 100 5.26) none * (1 + 70 / (208 / 2)) := by
    nlinarith [gamma_typ_pos]
  refine sum_div_mono _ _ _ _ ?_ (mul_pos lambd_typ_pos (add_pos dlt_typ_pos hg1))
  nlinarith [dlt_typ_pos, netTyp_mono j s₁ s₂ h]

/-- `priestley_taylor` value is nonnegative at the typical input with
solar 20. -/
theorem ptV_nonneg20 (j : ℕ) : 0 ≤ ptV j 20 := by
  simp only [ptV]
  refine div_nonneg ?_ (le_of_lt (mul_pos lambd_typ_pos (add_pos dlt_typ_pos gamma_typ_pos)))
  nlinarith [dlt_typ_pos, netTyp_pos20 j]

/-- `priestley_taylor` value strictly increases with solar radiation. -/
theorem ptV_mono (j : ℕ) (s₁ s₂ : ℝ) (h : s₁ < s₂) : ptV j s₁ < ptV j s₂ := by
  simp only [ptV]
  have hden := mul_pos lambd_typ_pos (add_pos dlt_typ_pos gamma_typ_pos)
  rw [div_lt_div_iff_of_pos_right hden]
  nlinarith [dlt_typ_pos, netTyp_mono j s₁ s₂ h]

/-- `makkink` value is nonnegative at the typical input with solar 20. -/
theorem makV_nonneg20 : 0 ≤ makV 20 := by
  simp only [makV]
  have hden := add_pos dlt_typ_pos gamma_typ_pos
  have hkey : (0.12 : ℝ) ≤ 1 / 2.45 * 0.61 * 20 *
      (4098 * e0_calc ((25 + 15) / 2) / ((25 + 15) / 2 + 237.3) ^ 2) /
      (4098 * e0_calc ((25 + 15) / 2) / ((25 + 15) / 2 + 237.3) ^ 2 +
        psy_calc (press_calc 100 5.26) none) := by
    rw [le_div_iff₀ hden]
    nlinarith [dlt_typ_lb, gamma_typ_ub, gamma_typ_pos, dlt_typ_pos]
  linarith

/-- `makkink` value strictly increases with solar radiation. -/
theorem makV_mono (s₁ s₂ : ℝ) (h : s₁ < s₂) : makV s₁ < makV s₂ := by
  simp only [makV]
  have hden := add_pos dlt_typ_pos gamma_typ_pos
  have hnum : 1 / 2.45 * 0.61 * s₁ *
      (4098 * e0_calc ((25 + 15) / 2) / ((25 + 15) / 2 + 237.3) ^ 2) <
      1 / 2.45 * 0.61 * s₂ *
      (4098 * e0_calc ((25 + 15) / 2) / ((25 + 15) / 2 + 237.3) ^ 2) := by
    nlinarith [dlt_typ_pos]
  have h2 : 1 / 2.45 * 0.61 * s₁ * (4098 * e0_calc ((25 + 15) / 2) /
      ((25 + 15) / 2 + 237.3) ^ 2) / (4098 * e0_calc ((25 + 15) / 2) /
      ((25 + 15) / 2 + 237.3) ^ 2 + psy_calc (press_calc 100 5.26) none) <
      1 / 2.45 * 0.61 * s₂ * (4098 * e0_calc ((25 + 15) / 2) /
      ((25 + 15) / 2 + 237.3) ^ 2) / (4098 * e0_calc ((25 + 15) / 2) /
      ((25 + 15) / 2 + 237.3) ^ 2 + psy_calc (press_calc 100 5.26) none) := by
    rw [div_lt_div_iff_of_pos_right hden]
    exact hnum
  linarith

/-- The amended C8 property at day of year `j` and solar radiations `s₁ < s₂`:
each of the five working formulas returns a value, the value at solar 20 is
nonnegative, and the value strictly increases with solar radiation. -/
def C8TypProp (j : ℕ) (s₁ s₂ : ℝ) : Prop :=
  (∃ v, penman 2 100 0.5 j 20 none 0 25 15 none none (some 60) none none none 2.6 0.536 =
      some v ∧ 0 ≤ v) ∧
  (∃ v₁ v₂,
    penman 2 100 0.5 j s₁ none 0 25 15 none none (some 60) none none none 2.6 0.536 = some v₁ ∧
    penman 2 100 0.5 j s₂ none 0 25 15 none none (some 60) none none none 2.6 0.536 = some v₂ ∧
    v₁ < v₂) ∧
  (∃ v, pm_fao56 2 100 0.5 j 20 none 0 25 15 none none (some 60) none none none =
      some v ∧ 0 ≤ v) ∧
  (∃ v₁ v₂,
    pm_fao56 2 100 0.5 j s₁ none 0 25 15 none none (some 60) none none none = some v₁ ∧
    pm_fao56 2 100 0.5 j s₂ none 0 25 15 none none (some 60) none none none = some v₂ ∧
    v₁ < v₂) ∧
  (∃ v, pm_1965 2 100 0.5 j 20 none 0 25 15 none none (some 60) none none none none 1 1 =
      some v ∧ 0 ≤ v) ∧
  (∃ v₁ v₂,
    pm_1965 2 100 0.5 j s₁ none 0 25 15 none none (some 60) none none none none 1 1 = some v₁ ∧
    pm_1965 2 100 0.5 j s₂ none 0 25 15 none none (some 60) none none none none 1 1 = some v₂ ∧
    v₁ < v₂) ∧
  (∃ v, priestley_taylor 2 100 0.5 j 20 none 25 15 none none (some 60) none none none 1.26 =
      some v ∧ 0 ≤ v) ∧
  (∃ v₁ v₂,
    priestley_taylor 2 100 0.5 j s₁ none 25 15 none none (some 60) none none none 1.26 =
      some v₁ ∧
    priestley_taylor 2 100 0.5 j s₂ none 25 15 none none (some 60) none none none 1.26 =
      some v₂ ∧
    v₁ < v₂) ∧
  (∃ v, makkink 25 15 20 100 1 = some v ∧ 0 ≤ v) ∧
  (∃ v₁ v₂, makkink 25 15 s₁ 100 1 = some v₁ ∧ makkink 25 15 s₂ 100 1 = some v₂ ∧ v₁ < v₂)

/-- C8 counterexample: `pm_fao1990`, listed by the claim among the formulas,
returns no value at all at the claim's typical inputs (it always raises a
`TypeError`; see C2), so it neither returns a value `≥ 0` nor one increasing
in `solar`. -/
theorem c8_pm_fao1990_counterexample :
    ¬ ∃ v : ℝ × ℝ × ℝ × ℝ × ℝ, pm_fao1990 2 100 0.5 1 20 25 15 60 none = some v := by
  intro hex
  obtain ⟨v, hv⟩ := hex
  rw [show pm_fao1990 2 100 0.5 1 20 25 15 60 none = none from rfl] at hv
  exact Option.noConfusion hv

/-- C8 (amended): each of the five formulas that can complete — `penman`,
`pm_fao56`, `pm_1965`, `priestley_taylor`, `makkink` — returns a value `≥ 0`
at the typical inputs (tmax 25, tmin 15, rh 60, wind 2, elevation 100,
latitude 0.5 rad, solar 20, any day of year), and its value strictly
increases as `solar` increases with all other inputs held fixed. -/
theorem et_formulas_nonneg_and_solar_mono (j : ℕ) (s₁ s₂ : ℝ) (h : s₁ < s₂) :
    C8TypProp j s₁ s₂ := by
  refine ⟨⟨penV j 20, penman_typ_eval j 20, penV_nonneg20 j⟩,
    ⟨penV j s₁, penV j s₂, penman_typ_eval j s₁, penman_typ_eval j s₂, penV_mono j s₁ s₂ h⟩,
    ⟨fao56V j 20, pm_fao56_typ_eval j 20, fao56V_nonneg20 j⟩,
    ⟨fao56V j s₁, fao56V j s₂, pm_fao56_typ_eval j s₁, pm_fao56_typ_eval j s₂,
      fao56V_mono j s₁ s₂ h⟩,
    ⟨pm1965V j 20, pm_1965_typ_eval j 20, pm1965V_nonneg20 j⟩,
    ⟨pm1965V j s₁, pm1965V j s₂, pm_1965_typ_eval j s₁, pm_1965_typ_eval j s₂,
      pm1965V_mono j s₁ s₂ h⟩,
    ⟨ptV j 20, priestley_taylor_typ_eval j 20, ptV_nonneg20 j⟩,
    ⟨ptV j s₁, ptV j s₂, priestley_taylor_typ_eval j s₁, priestley_taylor_typ_eval j s₂,
      ptV_mono j s₁ s₂ h⟩,
    ⟨makV 20, makkink_typ_eval 20, makV_nonneg20⟩,
    ⟨makV s₁, makV s₂, makkink_typ_eval s₁, makkink_typ_eval s₂, makV_mono s₁ s₂ h⟩⟩

/-- Witness for the amended C8 at day 1, solar radiations 20 and 21. -/
theorem et_formulas_nonneg_and_solar_mono_witness :
    (20 : ℝ) < 21 ∧ C8TypProp 1 20 21 :=
  ⟨by norm_num, et_formulas_nonneg_and_solar_mono 1 20 21 (by norm_num)⟩

end
